import Mathlib

/-!
Shallow embedding of the 3ds-raylib rlgl layer (src/source/rlgl.h) and
verification of its specification claims.

Floats are modelled as exact rationals.  Calls into the native citro3d
driver (C3D_ImmSendAttrib, C3D_ImmDrawBegin/End, C3D_TexInit/TexUpload,
TRACELOG) are modelled as observable traces or flags on the state; they
perform no computation that feeds back into the embedded logic, with the
single exception of C3D_TexInit's size validation, which is modelled from
the spec (see texInitOk).
-/

namespace Rlgl

/-- Four float components, mirroring raylib's Vector4 (x, y, z, w). -/
structure Vector4 where
  x : ℚ
  y : ℚ
  z : ℚ
  w : ℚ
deriving DecidableEq, Repr

/-- Primitive-mode code RL_LINES (0x0001). -/
def RL_LINES : Nat := 1

/-- Primitive-mode code RL_TRIANGLES (0x0004). -/
def RL_TRIANGLES : Nat := 4

/-- Primitive-mode code RL_QUADS (0x0007). -/
def RL_QUADS : Nat := 7

/-- Shader parameter slot index SHD_POSITION. -/
def SHD_POSITION : Nat := 0

/-- Shader parameter slot index SHD_TEXCOORD. -/
def SHD_TEXCOORD : Nat := 1

/-- Shader parameter slot index SHD_COLOR. -/
def SHD_COLOR : Nat := 2

/-- Shader parameter slot index SHD_NORMAL. -/
def SHD_NORMAL : Nat := 3

/-- Number of shader parameter slots, SHD_MAX_PARAMS. -/
def SHD_MAX_PARAMS : Nat := 4

/--
State of the attribute assembler: the static globals paramsUsed,
lastParams, backupParams, shaderNumParams, paramMode, paramNum and
currentDepth of rlgl.h, plus `sent`, a recording sink for the native
C3D_ImmSendAttrib calls (each sent Vector4 is appended in call order).
-/
structure AttribState where
  paramsUsed : Nat → Bool
  lastParams : Nat → Vector4
  backupParams : Nat → Vector4
  shaderNumParams : Nat
  paramMode : Nat
  paramNum : Nat
  currentDepth : ℚ
  sent : List Vector4

/--
rlSendAttr: for i in [0, shaderNumParams) send attribs[i] via
C3D_ImmSendAttrib (recorded on `sent`) and clear paramsUsed[i].
The argument selects lastParams or backupParams as in the C source.
-/
def rlSendAttr (attribs : Nat → Vector4) (s : AttribState) : AttribState :=
  { s with
    sent := s.sent ++ (List.range s.shaderNumParams).map attribs
    paramsUsed := fun i => if i < s.shaderNumParams then false else s.paramsUsed i }

/-- rlBackupParams: copy lastParams[i] into backupParams[i] for i < SHD_MAX_PARAMS. -/
def rlBackupParams (s : AttribState) : AttribState :=
  { s with
    backupParams := fun i => if i < SHD_MAX_PARAMS then s.lastParams i else s.backupParams i }

/--
rlPicaAttrFlush: the per-mode flush policy.  Lines: toggle paramNum (C's
`!` on int: 0 goes to 1, nonzero to 0).  Quads: phase 2 backs up the slots
and clears the pending flags without sending; phase 3 sends lastParams then
backupParams; phases 0 and 1 send lastParams; afterwards paramNum is
incremented mod 4.  Any other mode (Triangles) sends lastParams.
-/
def rlPicaAttrFlush (s : AttribState) : AttribState :=
  if s.paramMode = RL_LINES then
    { s with paramNum := if s.paramNum = 0 then 1 else 0 }
  else if s.paramMode = RL_QUADS then
    let s1 :=
      if s.paramNum = 2 then
        let s2 := rlBackupParams s
        { s2 with paramsUsed := fun i => if i < s2.shaderNumParams then false else s2.paramsUsed i }
      else if s.paramNum = 3 then
        let s2 := rlSendAttr s.lastParams s
        rlSendAttr s2.backupParams s2
      else
        rlSendAttr s.lastParams s
    { s1 with paramNum := (s1.paramNum + 1) % 4 }
  else
    rlSendAttr s.lastParams s

/-- rlVertex2i: flush if the position slot is pending and active, then store (x, y, 0, 0). -/
def rlVertex2i (x y : ℤ) (s : AttribState) : AttribState :=
  let s := if s.paramsUsed SHD_POSITION = true ∧ SHD_POSITION < s.shaderNumParams then
    rlPicaAttrFlush s else s
  { s with
    lastParams := fun i => if i = SHD_POSITION then ⟨(x : ℚ), (y : ℚ), 0, 0⟩ else s.lastParams i
    paramsUsed := fun i => if i = SHD_POSITION then true else s.paramsUsed i }

/-- rlVertex2f: flush if the position slot is pending and active, then store
(x, y, currentDepth, 0): the z component is stamped with the depth counter. -/
def rlVertex2f (x y : ℚ) (s : AttribState) : AttribState :=
  let s := if s.paramsUsed SHD_POSITION = true ∧ SHD_POSITION < s.shaderNumParams then
    rlPicaAttrFlush s else s
  { s with
    lastParams := fun i => if i = SHD_POSITION then ⟨x, y, s.currentDepth, 0⟩ else s.lastParams i
    paramsUsed := fun i => if i = SHD_POSITION then true else s.paramsUsed i }

/-- rlVertex3f: flush if the position slot is pending and active, then store (x, y, z, 0). -/
def rlVertex3f (x y z : ℚ) (s : AttribState) : AttribState :=
  let s := if s.paramsUsed SHD_POSITION = true ∧ SHD_POSITION < s.shaderNumParams then
    rlPicaAttrFlush s else s
  { s with
    lastParams := fun i => if i = SHD_POSITION then ⟨x, y, z, 0⟩ else s.lastParams i
    paramsUsed := fun i => if i = SHD_POSITION then true else s.paramsUsed i }

/-- rlTexCoord2f: flush if the texcoord slot is pending and active, then store (x, y, 0, 0). -/
def rlTexCoord2f (x y : ℚ) (s : AttribState) : AttribState :=
  let s := if s.paramsUsed SHD_TEXCOORD = true ∧ SHD_TEXCOORD < s.shaderNumParams then
    rlPicaAttrFlush s else s
  { s with
    lastParams := fun i => if i = SHD_TEXCOORD then ⟨x, y, 0, 0⟩ else s.lastParams i
    paramsUsed := fun i => if i = SHD_TEXCOORD then true else s.paramsUsed i }

/-- rlNormal3f: flush if the normal slot is pending and active, then store (x, y, z, 0). -/
def rlNormal3f (x y z : ℚ) (s : AttribState) : AttribState :=
  let s := if s.paramsUsed SHD_NORMAL = true ∧ SHD_NORMAL < s.shaderNumParams then
    rlPicaAttrFlush s else s
  { s with
    lastParams := fun i => if i = SHD_NORMAL then ⟨x, y, z, 0⟩ else s.lastParams i
    paramsUsed := fun i => if i = SHD_NORMAL then true else s.paramsUsed i }

/-- rlColor4ub: flush if the color slot is pending and active, then store the
byte channels normalized to [0, 1] by division by 255. -/
def rlColor4ub (r g b a : ℕ) (s : AttribState) : AttribState :=
  let s := if s.paramsUsed SHD_COLOR = true ∧ SHD_COLOR < s.shaderNumParams then
    rlPicaAttrFlush s else s
  { s with
    lastParams := fun i =>
      if i = SHD_COLOR then ⟨(r : ℚ) / 255, (g : ℚ) / 255, (b : ℚ) / 255, (a : ℚ) / 255⟩
      else s.lastParams i
    paramsUsed := fun i => if i = SHD_COLOR then true else s.paramsUsed i }

/-- rlColor3f: flush if the color slot is pending and active, then store
(x, y, z, 0) — the fourth component written by the C initializer is 0. -/
def rlColor3f (x y z : ℚ) (s : AttribState) : AttribState :=
  let s := if s.paramsUsed SHD_COLOR = true ∧ SHD_COLOR < s.shaderNumParams then
    rlPicaAttrFlush s else s
  { s with
    lastParams := fun i => if i = SHD_COLOR then ⟨x, y, z, 0⟩ else s.lastParams i
    paramsUsed := fun i => if i = SHD_COLOR then true else s.paramsUsed i }

/-- rlColor4f: flush if the color slot is pending and active, then store (x, y, z, w). -/
def rlColor4f (x y z w : ℚ) (s : AttribState) : AttribState :=
  let s := if s.paramsUsed SHD_COLOR = true ∧ SHD_COLOR < s.shaderNumParams then
    rlPicaAttrFlush s else s
  { s with
    lastParams := fun i => if i = SHD_COLOR then ⟨x, y, z, w⟩ else s.lastParams i
    paramsUsed := fun i => if i = SHD_COLOR then true else s.paramsUsed i }

/--
rlBegin: select the native topology (external C3D_ImmDrawBegin call, not
modelled), set paramMode and paramNum := 0, upload the projection and
modelview uniforms (external C3D_FVUnifMtx4x4 calls, no effect on this
state), clear all pending flags (the loop runs i < SHD_MAX_PARAMS) and
reset the slots to their defaults.
-/
def rlBegin (mode : Nat) (s : AttribState) : AttribState :=
  { s with
    paramMode := mode
    paramNum := 0
    paramsUsed := fun i => if i < SHD_MAX_PARAMS then false else s.paramsUsed i
    lastParams := fun i =>
      if i = SHD_POSITION then ⟨0, 0, 0, 0⟩
      else if i = SHD_TEXCOORD then ⟨0, 0, 0, 0⟩
      else if i = SHD_COLOR then ⟨1, 1, 1, 1⟩
      else if i = SHD_NORMAL then ⟨0, 0, 1, 0⟩
      else s.lastParams i }

/-- rlSetDepth: set the shared depth counter directly. -/
def rlSetDepth (d : ℚ) (s : AttribState) : AttribState :=
  { s with currentDepth := d }

/-- rlEnd: final flush, native end-of-primitive call (external), then
decrement the depth counter by 1/20000. -/
def rlEnd (s : AttribState) : AttribState :=
  let s := rlPicaAttrFlush s
  { s with currentDepth := s.currentDepth - 1 / 20000 }

/-- A 4x4 transform, mirroring raylib's Matrix struct of 16 floats. -/
structure Matrix4 where
  m0 : ℚ
  m1 : ℚ
  m2 : ℚ
  m3 : ℚ
  m4 : ℚ
  m5 : ℚ
  m6 : ℚ
  m7 : ℚ
  m8 : ℚ
  m9 : ℚ
  m10 : ℚ
  m11 : ℚ
  m12 : ℚ
  m13 : ℚ
  m14 : ℚ
  m15 : ℚ
deriving DecidableEq, Repr

/-- Maximum size of the matrix stack, MAX_MATRIX_STACK_SIZE. -/
def MAX_MATRIX_STACK_SIZE : Nat := 32

/-- Matrix-mode codes accepted by rlMatrixMode: RL_MODELVIEW (0x1700),
RL_PROJECTION (0x1701), RL_PROJECTION_BOTTOM (0x1703). -/
inductive MatrixMode where
  | modelview
  | projection
  | projectionBottom
deriving DecidableEq, Repr

/-- The pointer RLGL.State.currentMatrix: which of the four owned matrices
the "current" reference designates. -/
inductive CurrentRef where
  | refModelview
  | refProjection
  | refProjectionBottom
  | refTransform
deriving DecidableEq, Repr

/--
The matrix-stack part of RLGL.State: the four owned matrices, the current
pointer, the mode, the stack array with its counter, and the
transformRequired flag.  The stack is modelled as a total function so that
the out-of-bounds write of the original (push at counter 32) is recorded
observably at index 32; the C array only owns indices below
MAX_MATRIX_STACK_SIZE.  `overflowLogged` records the TRACELOG(LOG_ERROR)
diagnostic emitted by rlPushMatrix on overflow.
-/
structure MatStackState where
  currentMatrixMode : MatrixMode
  currentMatrix : CurrentRef
  modelview : Matrix4
  projection : Matrix4
  projectionBottom : Matrix4
  transform : Matrix4
  stack : Nat → Matrix4
  stackCounter : Nat
  transformRequired : Bool
  overflowLogged : Bool

/-- Read the matrix designated by the current pointer. -/
def readRef (s : MatStackState) : Matrix4 :=
  match s.currentMatrix with
  | .refModelview => s.modelview
  | .refProjection => s.projection
  | .refProjectionBottom => s.projectionBottom
  | .refTransform => s.transform

/-- Write the matrix designated by the current pointer. -/
def writeRef (s : MatStackState) (m : Matrix4) : MatStackState :=
  match s.currentMatrix with
  | .refModelview => { s with modelview := m }
  | .refProjection => { s with projection := m }
  | .refProjectionBottom => { s with projectionBottom := m }
  | .refTransform => { s with transform := m }

/-- rlMatrixMode: repoint the current reference at the matrix owned by the mode. -/
def rlMatrixMode (mode : MatrixMode) (s : MatStackState) : MatStackState :=
  { s with
    currentMatrix :=
      match mode with
      | .projection => .refProjection
      | .projectionBottom => .refProjectionBottom
      | .modelview => .refModelview
    currentMatrixMode := mode }

/--
rlPushMatrix: when the counter has reached capacity the C code only logs a
stack-overflow error (modelled by overflowLogged) and then proceeds; in
Modelview mode the current pointer is first redirected to the Transform
matrix and transformRequired is set; finally the current matrix is copied
into stack[stackCounter] and the counter is incremented — including the
out-of-bounds write at counter 32.
-/
def rlPushMatrix (s : MatStackState) : MatStackState :=
  let s := if s.stackCounter ≥ MAX_MATRIX_STACK_SIZE then { s with overflowLogged := true } else s
  let s := if s.currentMatrixMode = .modelview then
    { s with transformRequired := true, currentMatrix := .refTransform } else s
  { s with
    stack := Function.update s.stack s.stackCounter (readRef s)
    stackCounter := s.stackCounter + 1 }

/--
rlPopMatrix: if the counter is positive, restore the current matrix from
the top stack slot and decrement; then, if the counter is 0 while the mode
is Modelview, repoint current at the base Modelview matrix and clear
transformRequired.
-/
def rlPopMatrix (s : MatStackState) : MatStackState :=
  let s := if 0 < s.stackCounter then
    { writeRef s (s.stack (s.stackCounter - 1)) with stackCounter := s.stackCounter - 1 }
  else s
  if s.stackCounter = 0 ∧ s.currentMatrixMode = .modelview then
    { s with currentMatrix := .refModelview, transformRequired := false }
  else s

/--
One matrix-stack operation: a push, a pop, or an edit of the current
matrix.  `edit f` covers rlLoadIdentity, rlTranslatef, rlRotatef, rlScalef,
rlMultMatrixf, rlFrustum and rlOrtho, all of which replace *currentMatrix
by a function of its previous value.
-/
inductive StackOp where
  | push
  | pop
  | edit (f : Matrix4 → Matrix4)

/-- Run one matrix-stack operation. -/
def runOp (op : StackOp) (s : MatStackState) : MatStackState :=
  match op with
  | .push => rlPushMatrix s
  | .pop => rlPopMatrix s
  | .edit f => writeRef s (f (readRef s))

/-- Run a list of matrix-stack operations, left to right. -/
def runOps (l : List StackOp) (s : MatStackState) : MatStackState :=
  l.foldl (fun s op => runOp op s) s

/-- Balanced (well-bracketed) sequences of matrix-stack operations: every
pop matches an earlier push of the same sequence. -/
inductive Balanced : List StackOp → Prop where
  | nil : Balanced []
  | edit (f : Matrix4 → Matrix4) (t : List StackOp) : Balanced t → Balanced (.edit f :: t)
  | wrap (s t : List StackOp) : Balanced s → Balanced t →
      Balanced (.push :: s ++ .pop :: t)

/-- Signed counter movement of one operation. -/
def opDelta (op : StackOp) : ℤ :=
  match op with
  | .push => 1
  | .pop => -1
  | .edit _ => 0

/-- Greatest stack level (relative to the start) reached while running the
sequence: the maximum prefix sum of the operation deltas. -/
def maxLevel (l : List StackOp) : ℤ :=
  (l.foldl (fun p op => ((p.1 + opDelta op), max p.2 (p.1 + opDelta op))) ((0 : ℤ), (0 : ℤ))).2

/--
Pointer consistency in Modelview mode: the current reference designates
the base Modelview matrix when the counter is 0 and the Transform matrix
otherwise (this is how rlMatrixMode at counter 0 and push/pop leave the
state; rlMatrixMode called with a positive counter violates it).
-/
def Consistent (s : MatStackState) : Prop :=
  s.currentMatrixMode = .modelview →
    s.currentMatrix = if s.stackCounter = 0 then .refModelview else .refTransform

/--
Inner loop of rlNewPica200Tex: walk the nodes after the root with the
running candidate id; insert before the first node whose id exceeds the
candidate, else advance the candidate to node id + 1; append at the tail
when no gap is found.  Returns the chosen id and the updated node list.
-/
def newTexGo (newId : Nat) (l : List Nat) : Nat × List Nat :=
  match l with
  | [] => (newId, [newId])
  | c :: rest =>
      if newId < c then (newId, newId :: c :: rest)
      else
        let r := newTexGo (c + 1) rest
        (r.1, c :: r.2)

/--
rlNewPica200Tex: if the list is empty create the root with id 1;
otherwise keep the root and scan the remaining nodes with the candidate id
set to 2 — the C code increments newId once after visiting the root without
consulting the root's actual id.  The registry is the list of live ids in
node order.
-/
def rlNewPica200Tex (l : List Nat) : Nat × List Nat :=
  match l with
  | [] => (1, [1])
  | root :: rest =>
      let r := newTexGo 2 rest
      (r.1, root :: r.2)

/-- Inner loop of rlRemovePica200Tex: unlink the first node matching id. -/
def removeGo (id : Nat) (l : List Nat) : List Nat :=
  match l with
  | [] => []
  | c :: rest => if c = id then rest else c :: removeGo id rest

/-- rlRemovePica200Tex: remove the root if it matches, else unlink the
first later node matching id; a missing id is a no-op. -/
def rlRemovePica200Tex (id : Nat) (l : List Nat) : List Nat :=
  match l with
  | [] => []
  | root :: rest => if root = id then rest else root :: removeGo id rest

/-- The raylib pixel-format enumeration cases accepted by rlLoadTexture. -/
inductive PixelFormat where
  | compressedAstc4x4Rgba
  | compressedAstc8x8Rgba
  | compressedDxt1Rgb
  | compressedDxt1Rgba
  | compressedDxt3Rgba
  | compressedDxt5Rgba
  | compressedEtc1Rgb
  | compressedEtc2EacRgba
  | compressedEtc2Rgb
  | compressedPvrtRgb
  | compressedPvrtRgba
  | uncompressedGrayAlpha
  | uncompressedGrayscale
  | uncompressedR32
  | uncompressedR32G32B32
  | uncompressedR32G32B32A32
  | uncompressedR4G4B4A4
  | uncompressedR5G5B5A1
  | uncompressedR5G6B5
  | uncompressedR8G8B8
  | uncompressedR8G8B8A8
deriving DecidableEq, Repr

/-- The GPU_TEXCOLOR values rlGetPica200TextureFormat can return; the C
sentinel (GPU_TEXCOLOR)-1 for an unsupported format is modelled as none. -/
inductive GPUTexColor where
  | gpuRGBA8
  | gpuRGB8
  | gpuRGBA5551
  | gpuRGB565
  | gpuRGBA4
  | gpuLA8
  | gpuL8
  | gpuETC1
deriving DecidableEq, Repr

/-- rlGetPica200TextureFormat: map a raylib pixel format to the native
texel format, or none for the -1 sentinel. -/
def rlGetPica200TextureFormat (format : PixelFormat) : Option GPUTexColor :=
  match format with
  | .compressedAstc4x4Rgba => none
  | .compressedAstc8x8Rgba => none
  | .compressedDxt1Rgb => none
  | .compressedDxt1Rgba => none
  | .compressedDxt3Rgba => none
  | .compressedDxt5Rgba => none
  | .compressedEtc1Rgb => some .gpuETC1
  | .compressedEtc2EacRgba => none
  | .compressedEtc2Rgb => none
  | .compressedPvrtRgb => none
  | .compressedPvrtRgba => none
  | .uncompressedGrayAlpha => some .gpuLA8
  | .uncompressedGrayscale => some .gpuL8
  | .uncompressedR32 => none
  | .uncompressedR32G32B32 => none
  | .uncompressedR32G32B32A32 => none
  | .uncompressedR4G4B4A4 => some .gpuRGBA4
  | .uncompressedR5G5B5A1 => some .gpuRGBA5551
  | .uncompressedR5G6B5 => some .gpuRGB565
  | .uncompressedR8G8B8 => some .gpuRGB8
  | .uncompressedR8G8B8A8 => some .gpuRGBA8

/-- rlGetPica200TextureBpp: bits per pixel of a native texel format. -/
def rlGetPica200TextureBpp (format : GPUTexColor) : Nat :=
  match format with
  | .gpuRGBA8 => 32
  | .gpuRGB8 => 24
  | .gpuRGBA5551 => 16
  | .gpuRGB565 => 16
  | .gpuRGBA4 => 16
  | .gpuLA8 => 16
  | .gpuL8 => 8
  | .gpuETC1 => 4

/-- checkTexSize: a texture dimension is valid when it lies in [8, 1024]
and is a power of two (size AND size-1 vanishes). -/
def checkTexSize (size : Nat) : Bool :=
  if size < 8 ∨ size > 1024 then false
  else if size &&& (size - 1) ≠ 0 then false
  else true

/--
Modelled from the spec: C3D_TexInit is the native citro3d texture-init
entry point, not part of this repository.  Per the spec, texture load
validates that width and height are each a power of two within [8, 1024]
and fails with a size error otherwise (the source's own checkTexSize, used
in the failure diagnostic, encodes exactly this condition); on success the
native texture resource is created.
-/
def texInitOk (width height : Nat) : Bool :=
  checkTexSize width && checkTexSize height

/-- The fixed 64-entry Z-order (Morton) permutation table swizzleArr. -/
def swizzleList : List Nat :=
  [0, 1, 4, 5, 16, 17, 20, 21,
   2, 3, 6, 7, 18, 19, 22, 23,
   8, 9, 12, 13, 24, 25, 28, 29,
   10, 11, 14, 15, 26, 27, 30, 31,
   32, 33, 36, 37, 48, 49, 52, 53,
   34, 35, 38, 39, 50, 51, 54, 55,
   40, 41, 44, 45, 56, 57, 60, 61,
   42, 43, 46, 47, 58, 59, 62, 63]

/-- Entry i of the swizzle table. -/
def swizzleArr (i : Nat) : Nat := swizzleList.getD i 0

/--
The byte writes performed by the tiling loop of rlLoadTexture, in loop
order: w over horizontal tiles (outer), h over vertical tiles, i over the
64 tile-local indices in steps of 2 (i = 2*m), then the two pixels j and
the bytes k of each pixel.  Each write pair is
(destination byte offset in the swizzled buffer, byte value read from
`data`).  Address arithmetic mirrors the C pointer expressions, including
the byte-order reversal (numBytes - k - 1) on the destination side and the
vertical flip in pixelNum.
-/
def swizzleWrites (data : Nat → Nat) (width height bpp : Nat) : List (Nat × Nat) :=
  (List.range (width / 8)).flatMap fun w =>
    (List.range (height / 8)).flatMap fun h =>
      (List.range 32).flatMap fun m =>
        let i := 2 * m
        let pixelX := w * 8
        let pixelY := h * 8
        let tileNum := w + h * (width / 8)
        let pixelNum := pixelX + i % 8 + (height - (pixelY + i / 8) - 1) * width
        let numBytes := if bpp / 8 = 0 then 1 else bpp / 8
        (List.range 2).flatMap fun j =>
          (List.range numBytes).map fun k =>
            (tileNum * 64 * bpp / 8 + swizzleArr i * bpp / 8 + numBytes * j + (numBytes - k - 1),
             data (pixelNum * bpp / 8 + k + numBytes * j))

/-- Apply a list of byte writes to a buffer, in order (later writes win). -/
def applyWrites (ws : List (Nat × Nat)) (buf : Nat → Nat) : Nat → Nat :=
  ws.foldl (fun b p => Function.update b p.1 p.2) buf

/-- The swizzled buffer produced by the tiling loop of rlLoadTexture, as a
byte function (unwritten bytes of the malloc'd buffer are modelled as 0). -/
def swizzleEncode (data : Nat → Nat) (width height bpp : Nat) : Nat → Nat :=
  applyWrites (swizzleWrites data width height bpp) (fun _ => 0)

/-- The swizzled buffer as a byte list of the malloc'd size
width * height * bpp / 8. -/
def swizzleEncodeBytes (data : Nat → Nat) (width height bpp : Nat) : List Nat :=
  (List.range (width * height * bpp / 8)).map (swizzleEncode data width height bpp)

/-- Registry-and-native-resource state of the texture subsystem: the
linked list of live ids, and the uploads performed by C3D_TexUpload as
(id, swizzled byte buffer) records. -/
structure TexState where
  registry : List Nat
  natives : List (Nat × List Nat)
deriving DecidableEq

/--
rlLoadTexture: resolve the pixel format (failure: return 0 with no state
change); allocate a registry node via rlNewPica200Tex; run the native
C3D_TexInit (modelled by texInitOk) — on failure return 0 with the already
extended registry left in place and no native resource created; otherwise
swizzle the pixel data and upload it, returning the new id.
-/
def rlLoadTexture (data : Nat → Nat) (width height : Nat) (format : PixelFormat)
    (st : TexState) : Nat × TexState :=
  match rlGetPica200TextureFormat format with
  | none => (0, st)
  | some texColor =>
      let r := rlNewPica200Tex st.registry
      let st1 : TexState := { st with registry := r.2 }
      if texInitOk width height = false then (0, st1)
      else
        let bpp := rlGetPica200TextureBpp texColor
        (r.1, { st1 with
          natives := st1.natives ++ [(r.1, swizzleEncodeBytes data width height bpp)] })

/-- The identity matrix value, as rlglInit leaves every matrix. -/
def matI : Matrix4 := ⟨1, 0, 0, 0, 0, 1, 0, 0, 0, 0, 1, 0, 0, 0, 0, 1⟩

/-- A translation-like matrix distinct from the identity. -/
def matT : Matrix4 := ⟨1, 0, 0, 0, 0, 1, 0, 0, 0, 0, 1, 0, 5, 7, 9, 1⟩

/-- A matrix-stack state whose counter has reached capacity (32): the
situation of the matching claim about push overflow. -/
def mstFull : MatStackState :=
  { currentMatrixMode := .projection
    currentMatrix := .refProjection
    modelview := matI
    projection := matT
    projectionBottom := matI
    transform := matI
    stack := fun _ => matI
    stackCounter := 32
    transformRequired := false
    overflowLogged := false }

/-- A reachable matrix-stack state in Modelview mode with a positive
counter whose current reference designates the base Modelview matrix (as
rlMatrixMode leaves it), while the Transform matrix differs from it. -/
def mstStale : MatStackState :=
  { currentMatrixMode := .modelview
    currentMatrix := .refModelview
    modelview := matI
    projection := matI
    projectionBottom := matI
    transform := matT
    stack := fun _ => matI
    stackCounter := 1
    transformRequired := true
    overflowLogged := false }

/-- A freshly initialized matrix-stack state (counter 0, Modelview mode). -/
def mstInit : MatStackState :=
  { currentMatrixMode := .modelview
    currentMatrix := .refModelview
    modelview := matI
    projection := matI
    projectionBottom := matI
    transform := matI
    stack := fun _ => matI
    stackCounter := 0
    transformRequired := false
    overflowLogged := false }

/-- A mid-quad attribute state at phase 3 with distinct current and
backed-up attribute sets. -/
def attrQuad3 : AttribState :=
  { paramsUsed := fun _ => true
    lastParams := fun _ => ⟨2, 0, 0, 0⟩
    backupParams := fun _ => ⟨5, 0, 0, 0⟩
    shaderNumParams := 3
    paramMode := RL_QUADS
    paramNum := 3
    currentDepth := 0
    sent := [] }

/-- A Lines-mode attribute state with every slot pending. -/
def attrLines : AttribState :=
  { paramsUsed := fun _ => true
    lastParams := fun _ => ⟨2, 0, 0, 0⟩
    backupParams := fun _ => ⟨5, 0, 0, 0⟩
    shaderNumParams := 3
    paramMode := RL_LINES
    paramNum := 0
    currentDepth := 0
    sent := [] }

/-- A post-init attribute state (shaderNumParams = 3) before a Begin. -/
def attrInit : AttribState :=
  { paramsUsed := fun _ => false
    lastParams := fun _ => ⟨0, 0, 0, 0⟩
    backupParams := fun _ => ⟨0, 0, 0, 0⟩
    shaderNumParams := 3
    paramMode := RL_TRIANGLES
    paramNum := 0
    currentDepth := 1
    sent := [] }

/-- A concrete pixel-data byte function for texture-encode witnesses. -/
def dataBytes (n : Nat) : Nat := n % 256

lemma rlSendAttr_currentDepth (a : Nat → Vector4) (σ : AttribState) :
    (rlSendAttr a σ).currentDepth = σ.currentDepth := rfl

lemma rlPicaAttrFlush_currentDepth (σ : AttribState) :
    (rlPicaAttrFlush σ).currentDepth = σ.currentDepth := by
  unfold rlPicaAttrFlush
  split
  · rfl
  split
  · split
    · rfl
    split <;> rfl
  · rfl

lemma rlEnd_currentDepth (σ : AttribState) :
    (rlEnd σ).currentDepth = σ.currentDepth - 1 / 20000 := by
  show (rlPicaAttrFlush σ).currentDepth - 1 / 20000 = σ.currentDepth - 1 / 20000
  rw [rlPicaAttrFlush_currentDepth]

lemma rlPicaAttrFlush_lastParams (σ : AttribState) :
    (rlPicaAttrFlush σ).lastParams = σ.lastParams := by
  unfold rlPicaAttrFlush
  split
  · rfl
  split
  · split
    · rfl
    split <;> rfl
  · rfl

/-- Claim C10: the three-component color setter stores (x, y, z, 0) in the
Color slot — alpha 0, not 1 — unlike the Begin-time default (1, 1, 1, 1). -/
theorem rlColor3f_stores_alpha_zero :
    ∀ (x y z : ℚ) (σ : AttribState),
      (rlColor3f x y z σ).lastParams SHD_COLOR = ⟨x, y, z, 0⟩ ∧
      (rlBegin RL_TRIANGLES σ).lastParams SHD_COLOR = ⟨1, 1, 1, 1⟩ := by
  intro x y z σ
  constructor
  · simp [rlColor3f]
  · simp [rlBegin, SHD_COLOR, SHD_POSITION, SHD_TEXCOORD]

/-- Claim C9: N calls of rlEnd leave the depth counter at d - N/20000;
rlEnd decrements by exactly 1/20000 per call, while the flush, rlBegin and
every attribute setter leave the counter unchanged, and rlSetDepth sets it. -/
theorem rlEnd_iterate_depth :
    (∀ (n : ℕ) (σ : AttribState),
      (rlEnd^[n] σ).currentDepth = σ.currentDepth - n * (1 / 20000 : ℚ)) ∧
    (∀ σ : AttribState, (rlPicaAttrFlush σ).currentDepth = σ.currentDepth) ∧
    (∀ (m : ℕ) (σ : AttribState), (rlBegin m σ).currentDepth = σ.currentDepth) ∧
    (∀ (x y : ℚ) (σ : AttribState), (rlVertex2f x y σ).currentDepth = σ.currentDepth) ∧
    (∀ (x y z : ℚ) (σ : AttribState), (rlVertex3f x y z σ).currentDepth = σ.currentDepth) ∧
    (∀ (x y : ℚ) (σ : AttribState), (rlTexCoord2f x y σ).currentDepth = σ.currentDepth) ∧
    (∀ (x y z : ℚ) (σ : AttribState), (rlNormal3f x y z σ).currentDepth = σ.currentDepth) ∧
    (∀ (x y z : ℚ) (σ : AttribState), (rlColor3f x y z σ).currentDepth = σ.currentDepth) ∧
    (∀ (x y z w : ℚ) (σ : AttribState), (rlColor4f x y z w σ).currentDepth = σ.currentDepth) ∧
    (∀ (r g b a : ℕ) (σ : AttribState), (rlColor4ub r g b a σ).currentDepth = σ.currentDepth) ∧
    (∀ (d : ℚ) (σ : AttribState), (rlSetDepth d σ).currentDepth = d) := by
  refine ⟨?_, rlPicaAttrFlush_currentDepth, fun m σ => rfl, ?_, ?_, ?_, ?_, ?_, ?_, ?_, fun d σ => rfl⟩
  · intro n
    induction n with
    | zero => intro σ; simp
    | succ k ih =>
        intro σ
        rw [Function.iterate_succ_apply, ih, rlEnd_currentDepth]
        push_cast
        ring
  · intro x y σ
    show (if σ.paramsUsed SHD_POSITION = true ∧ SHD_POSITION < σ.shaderNumParams then
      rlPicaAttrFlush σ else σ).currentDepth = σ.currentDepth
    split
    · exact rlPicaAttrFlush_currentDepth σ
    · rfl
  · intro x y z σ
    show (if σ.paramsUsed SHD_POSITION = true ∧ SHD_POSITION < σ.shaderNumParams then
      rlPicaAttrFlush σ else σ).currentDepth = σ.currentDepth
    split
    · exact rlPicaAttrFlush_currentDepth σ
    · rfl
  · intro x y σ
    show (if σ.paramsUsed SHD_TEXCOORD = true ∧ SHD_TEXCOORD < σ.shaderNumParams then
      rlPicaAttrFlush σ else σ).currentDepth = σ.currentDepth
    split
    · exact rlPicaAttrFlush_currentDepth σ
    · rfl
  · intro x y z σ
    show (if σ.paramsUsed SHD_NORMAL = true ∧ SHD_NORMAL < σ.shaderNumParams then
      rlPicaAttrFlush σ else σ).currentDepth = σ.currentDepth
    split
    · exact rlPicaAttrFlush_currentDepth σ
    · rfl
  · intro x y z σ
    show (if σ.paramsUsed SHD_COLOR = true ∧ SHD_COLOR < σ.shaderNumParams then
      rlPicaAttrFlush σ else σ).currentDepth = σ.currentDepth
    split
    · exact rlPicaAttrFlush_currentDepth σ
    · rfl
  · intro x y z w σ
    show (if σ.paramsUsed SHD_COLOR = true ∧ SHD_COLOR < σ.shaderNumParams then
      rlPicaAttrFlush σ else σ).currentDepth = σ.currentDepth
    split
    · exact rlPicaAttrFlush_currentDepth σ
    · rfl
  · intro r g b a σ
    show (if σ.paramsUsed SHD_COLOR = true ∧ SHD_COLOR < σ.shaderNumParams then
      rlPicaAttrFlush σ else σ).currentDepth = σ.currentDepth
    split
    · exact rlPicaAttrFlush_currentDepth σ
    · rfl

/-- Claim C4 (failing run): after Allocate, Allocate, Remove(1) the
registry holds the single live id 2, yet the next Allocate returns 2 again
and leaves the registry [2, 2] — a duplicated live id rather than the
smallest unused id 1.  The allocator's candidate id is hardcoded to 2 after
the root node instead of root id + 1. -/
theorem allocate_after_remove_head_duplicates :
    rlRemovePica200Tex 1 (rlNewPica200Tex (rlNewPica200Tex []).2).2 = [2] ∧
    rlNewPica200Tex [2] = (2, [2, 2]) := by
  decide

/-- Claim C3 (failing run): with the counter at capacity 32, rlPushMatrix
logs the overflow diagnostic but still copies the current matrix into
stack slot 32 — past the 32-entry array — and increments the counter to 33. -/
theorem rlPushMatrix_overflow_writes_oob :
    (rlPushMatrix mstFull).overflowLogged = true ∧
    (rlPushMatrix mstFull).stackCounter = 33 ∧
    (rlPushMatrix mstFull).stack 32 = matT ∧
    mstFull.stack 32 = matI ∧
    matT ≠ matI := by
  refine ⟨rfl, rfl, ?_, rfl, by decide⟩
  show Function.update mstFull.stack 32 (readRef mstFull) 32 = matT
  rw [Function.update_same]
  rfl

/-- Claim C1 counterexample: at quads phase 3, the flush does not send the
BackupSnapshot's set first — on a state whose current and backed-up sets
differ, the recorded send order is not backup-then-current. -/
theorem quadsPhase3_backup_first_fails :
    ¬ ((rlPicaAttrFlush attrQuad3).sent =
      attrQuad3.sent ++ (List.range attrQuad3.shaderNumParams).map attrQuad3.backupParams
        ++ (List.range attrQuad3.shaderNumParams).map attrQuad3.lastParams) := by
  decide

/-- Claim C1 (amended): at quads phase 3 the flush performs exactly two
attribute-set sends, in the order current set first, then the
BackupSnapshot's set, and afterwards the phase wraps to 0. -/
theorem quadsPhase3_sends_current_then_backup (σ : AttribState)
    (hm : σ.paramMode = RL_QUADS) (hp : σ.paramNum = 3) :
    (rlPicaAttrFlush σ).sent =
      σ.sent ++ (List.range σ.shaderNumParams).map σ.lastParams
        ++ (List.range σ.shaderNumParams).map σ.backupParams ∧
    (rlPicaAttrFlush σ).paramNum = 0 := by
  unfold rlPicaAttrFlush
  rw [hm, hp]
  simp [RL_QUADS, RL_LINES, rlSendAttr, hp]

/-- Witness for the amended C1 theorem at a concrete phase-3 quads state. -/
theorem quadsPhase3_sends_current_then_backup_witness :
    (attrQuad3.paramMode = RL_QUADS ∧ attrQuad3.paramNum = 3) ∧
    ((rlPicaAttrFlush attrQuad3).sent =
      attrQuad3.sent ++ (List.range attrQuad3.shaderNumParams).map attrQuad3.lastParams
        ++ (List.range attrQuad3.shaderNumParams).map attrQuad3.backupParams ∧
    (rlPicaAttrFlush attrQuad3).paramNum = 0) :=
  ⟨⟨rfl, rfl⟩, quadsPhase3_sends_current_then_backup attrQuad3 rfl rfl⟩

/-- Claim C2 counterexample: on a Lines-mode state with pending slots the
flush toggles the phase but records no attribute send at all and leaves
the position slot's pending flag set, so it does not send the current
3-slot set. -/
theorem linesFlush_sends_nothing :
    (rlPicaAttrFlush attrLines).paramNum = 1 ∧
    (rlPicaAttrFlush attrLines).sent = [] ∧
    (rlPicaAttrFlush attrLines).paramsUsed SHD_POSITION = true ∧
    ¬ ((rlPicaAttrFlush attrLines).sent =
      attrLines.sent ++ (List.range attrLines.shaderNumParams).map attrLines.lastParams) := by
  decide

/-- Claim C2 (amended): for a Lines primitive the flush only toggles the
0/1 phase — it performs no attribute sends and clears no pending flags,
leaving every other component of the state unchanged. -/
theorem linesFlush_toggles_only (σ : AttribState) (hm : σ.paramMode = RL_LINES) :
    rlPicaAttrFlush σ = { σ with paramNum := if σ.paramNum = 0 then 1 else 0 } := by
  unfold rlPicaAttrFlush
  rw [if_pos hm]

/-- Witness for the amended C2 theorem at a concrete Lines-mode state. -/
theorem linesFlush_toggles_only_witness :
    attrLines.paramMode = RL_LINES ∧
    rlPicaAttrFlush attrLines =
      { attrLines with paramNum := if attrLines.paramNum = 0 then 1 else 0 } :=
  ⟨rfl, linesFlush_toggles_only attrLines rfl⟩

/-- Claim C8: after Begin(Triangles), the first Position submission
triggers no flush; a second consecutive Position submission triggers
exactly one flush (one 3-slot send) before the overwrite, whose Position
is the first submitted value stamped with the depth counter and whose
TexCoord and Color are the Begin-time defaults; afterwards the slot holds
the second value. -/
theorem doublePosition_flushes_once (σ : AttribState) (x1 y1 x2 y2 : ℚ)
    (hN : σ.shaderNumParams = 3) :
    ((rlVertex2f x1 y1 (rlBegin RL_TRIANGLES σ)).sent = σ.sent) ∧
    ((rlVertex2f x2 y2 (rlVertex2f x1 y1 (rlBegin RL_TRIANGLES σ))).sent =
      (rlVertex2f x1 y1 (rlBegin RL_TRIANGLES σ)).sent ++
        [⟨x1, y1, σ.currentDepth, 0⟩, ⟨0, 0, 0, 0⟩, ⟨1, 1, 1, 1⟩]) ∧
    ((rlVertex2f x2 y2 (rlVertex2f x1 y1 (rlBegin RL_TRIANGLES σ))).lastParams SHD_POSITION =
      ⟨x2, y2, σ.currentDepth, 0⟩) := by
  refine ⟨?_, ?_, ?_⟩ <;>
    simp [rlBegin, rlVertex2f, rlPicaAttrFlush, rlSendAttr, hN,
      SHD_POSITION, SHD_TEXCOORD, SHD_COLOR, SHD_NORMAL, SHD_MAX_PARAMS,
      RL_TRIANGLES, RL_LINES, RL_QUADS, List.range_succ]

/-- Witness for the C8 theorem at a concrete post-init state. -/
theorem doublePosition_flushes_once_witness :
    attrInit.shaderNumParams = 3 ∧
    (((rlVertex2f 1 2 (rlBegin RL_TRIANGLES attrInit)).sent = attrInit.sent) ∧
    ((rlVertex2f 3 4 (rlVertex2f 1 2 (rlBegin RL_TRIANGLES attrInit))).sent =
      (rlVertex2f 1 2 (rlBegin RL_TRIANGLES attrInit)).sent ++
        [⟨1, 2, attrInit.currentDepth, 0⟩, ⟨0, 0, 0, 0⟩, ⟨1, 1, 1, 1⟩]) ∧
    ((rlVertex2f 3 4 (rlVertex2f 1 2 (rlBegin RL_TRIANGLES attrInit))).lastParams SHD_POSITION =
      ⟨3, 4, attrInit.currentDepth, 0⟩)) :=
  ⟨rfl, doublePosition_flushes_once attrInit 1 2 3 4 rfl⟩

/-- Claim C5 counterexample: loading a texture of width 10 (not a power of
two) with a supported format from the empty registry returns the sentinel
handle 0 and creates no native texture, but it does not leave the registry
unchanged — a node with id 1 has been allocated and leaked. -/
theorem loadTexture_badWidth_leaks_node :
    rlLoadTexture dataBytes 10 8 .uncompressedGrayscale ⟨[], []⟩ = (0, ⟨[1], []⟩) ∧
    ¬ ((rlLoadTexture dataBytes 10 8 .uncompressedGrayscale ⟨[], []⟩).2 = ⟨[], []⟩) := by
  decide

/-- Claim C5 (amended): for a supported format and an invalid dimension,
texture load returns the sentinel handle 0 and creates no native resource,
but the registry has already been extended by a freshly allocated node,
which is leaked. -/
theorem loadTexture_invalidSize (data : Nat → Nat) (w h : Nat) (fmt : PixelFormat)
    (c : GPUTexColor) (st : TexState)
    (hfmt : rlGetPica200TextureFormat fmt = some c)
    (hsz : texInitOk w h = false) :
    rlLoadTexture data w h fmt st =
      (0, { st with registry := (rlNewPica200Tex st.registry).2 }) := by
  unfold rlLoadTexture
  rw [hfmt]
  simp [hsz]

/-- Witness for the amended C5 theorem at width 10 with grayscale format. -/
theorem loadTexture_invalidSize_witness :
    (rlGetPica200TextureFormat .uncompressedGrayscale = some .gpuL8 ∧
      texInitOk 10 8 = false) ∧
    rlLoadTexture dataBytes 10 8 .uncompressedGrayscale ⟨[], []⟩ =
      (0, { TexState.mk [] [] with registry := (rlNewPica200Tex (TexState.mk [] []).registry).2 }) :=
  ⟨⟨rfl, by decide⟩,
    loadTexture_invalidSize dataBytes 10 8 .uncompressedGrayscale .gpuL8 ⟨[], []⟩ rfl (by decide)⟩

lemma writeRef_mode (σ : MatStackState) (m : Matrix4) :
    (writeRef σ m).currentMatrixMode = σ.currentMatrixMode := by
  unfold writeRef
  split <;> rfl

lemma writeRef_currentMatrix (σ : MatStackState) (m : Matrix4) :
    (writeRef σ m).currentMatrix = σ.currentMatrix := by
  unfold writeRef
  split <;> simp_all

lemma writeRef_counter (σ : MatStackState) (m : Matrix4) :
    (writeRef σ m).stackCounter = σ.stackCounter := by
  unfold writeRef
  split <;> rfl

lemma writeRef_stack (σ : MatStackState) (m : Matrix4) :
    (writeRef σ m).stack = σ.stack := by
  unfold writeRef
  split <;> rfl

lemma readRef_writeRef (σ : MatStackState) (m : Matrix4) :
    readRef (writeRef σ m) = m := by
  unfold writeRef
  split <;> simp_all [readRef]

lemma writeRef_modelview_of_transform (σ : MatStackState) (m : Matrix4)
    (h : σ.currentMatrix = .refTransform) :
    (writeRef σ m).modelview = σ.modelview := by
  simp [writeRef, h]

lemma rlPushMatrix_spec (σ : MatStackState) :
    (rlPushMatrix σ).stackCounter = σ.stackCounter + 1 ∧
    (rlPushMatrix σ).currentMatrixMode = σ.currentMatrixMode ∧
    (rlPushMatrix σ).currentMatrix =
      (if σ.currentMatrixMode = .modelview then .refTransform else σ.currentMatrix) ∧
    (rlPushMatrix σ).stack = Function.update σ.stack σ.stackCounter
      (if σ.currentMatrixMode = .modelview then σ.transform else readRef σ) ∧
    (rlPushMatrix σ).modelview = σ.modelview ∧
    (rlPushMatrix σ).transform = σ.transform := by
  unfold rlPushMatrix
  split <;> split <;> simp_all [readRef]

lemma rlPopMatrix_noreset (σ : MatStackState) (hc : 0 < σ.stackCounter)
    (h2 : ¬(σ.stackCounter - 1 = 0 ∧ σ.currentMatrixMode = .modelview)) :
    rlPopMatrix σ =
      { writeRef σ (σ.stack (σ.stackCounter - 1)) with stackCounter := σ.stackCounter - 1 } := by
  unfold rlPopMatrix
  rw [if_pos hc, if_neg]
  intro hcontra
  exact h2 ⟨hcontra.1, (writeRef_mode σ _).symm ▸ hcontra.2⟩

lemma rlPopMatrix_reset (σ : MatStackState) (hc : σ.stackCounter = 1)
    (hm : σ.currentMatrixMode = .modelview) :
    rlPopMatrix σ =
      { writeRef σ (σ.stack 0) with
          stackCounter := 0
          currentMatrix := .refModelview
          transformRequired := false } := by
  unfold rlPopMatrix
  rw [if_pos (by omega : 0 < σ.stackCounter), if_pos]
  · rw [hc]
  · exact ⟨by rw [hc], (writeRef_mode σ _).symm ▸ hm⟩

lemma runOps_cons (op : StackOp) (l : List StackOp) (σ : MatStackState) :
    runOps (op :: l) σ = runOps l (runOp op σ) := rfl

lemma runOps_append (l1 l2 : List StackOp) (σ : MatStackState) :
    runOps (l1 ++ l2) σ = runOps l2 (runOps l1 σ) := by
  simp [runOps, List.foldl_append]

lemma balanced_middle {s : List StackOp} (hs : Balanced s) :
    ∀ σ : MatStackState, 1 ≤ σ.stackCounter →
      (σ.currentMatrixMode = .modelview → σ.currentMatrix = .refTransform) →
      (runOps s σ).stackCounter = σ.stackCounter ∧
      (∀ j, j < σ.stackCounter → (runOps s σ).stack j = σ.stack j) ∧
      (runOps s σ).currentMatrix = σ.currentMatrix ∧
      (runOps s σ).currentMatrixMode = σ.currentMatrixMode ∧
      (σ.currentMatrixMode = .modelview → (runOps s σ).modelview = σ.modelview) := by
  induction hs with
  | nil =>
      intro σ h1 h2
      exact ⟨rfl, fun j _ => rfl, rfl, rfl, fun _ => rfl⟩
  | edit f t ht ih =>
      intro σ h1 h2
      rw [runOps_cons]
      have hmode : (runOp (.edit f) σ).currentMatrixMode = σ.currentMatrixMode :=
        writeRef_mode σ _
      have hptr : (runOp (.edit f) σ).currentMatrix = σ.currentMatrix :=
        writeRef_currentMatrix σ _
      have hcnt : (runOp (.edit f) σ).stackCounter = σ.stackCounter :=
        writeRef_counter σ _
      have hstk : (runOp (.edit f) σ).stack = σ.stack :=
        writeRef_stack σ _
      obtain ⟨a, b, c, d, e⟩ := ih (runOp (.edit f) σ) (by rw [hcnt]; exact h1)
        (by intro hm; rw [hptr]; exact h2 (by rw [← hmode]; exact hm))
      refine ⟨?_, ?_, ?_, ?_, ?_⟩
      · rw [a, hcnt]
      · intro j hj
        rw [b j (by rw [hcnt]; exact hj), hstk]
      · rw [c, hptr]
      · rw [d, hmode]
      · intro hm
        rw [e (by rw [hmode]; exact hm)]
        exact writeRef_modelview_of_transform σ _ (h2 hm)
  | wrap s t hsb htb ihs iht =>
      intro σ h1 h2
      have hrw : runOps (.push :: s ++ .pop :: t) σ
          = runOps t (rlPopMatrix (runOps s (rlPushMatrix σ))) := by
        rw [runOps_append, runOps_cons, runOps_cons]
        rfl
      rw [hrw]
      obtain ⟨p1, p2, p3, p4, p5, p6⟩ := rlPushMatrix_spec σ
      obtain ⟨a, b, c, d, e⟩ := ihs (rlPushMatrix σ)
        (by omega)
        (by intro hm; rw [p3, if_pos (p2 ▸ hm)])
      set σ₂ := runOps s (rlPushMatrix σ) with hs2
      have hc2 : σ₂.stackCounter = σ.stackCounter + 1 := by rw [a, p1]
      have hpop : rlPopMatrix σ₂
          = { writeRef σ₂ (σ₂.stack (σ₂.stackCounter - 1)) with
              stackCounter := σ₂.stackCounter - 1 } :=
        rlPopMatrix_noreset σ₂ (by omega) (by
          intro hcon
          obtain ⟨hx, -⟩ := hcon
          rw [hc2] at hx
          omega)
      have hq1 : (rlPopMatrix σ₂).stackCounter = σ₂.stackCounter - 1 := by rw [hpop]
      have hq2 : (rlPopMatrix σ₂).currentMatrixMode = σ₂.currentMatrixMode := by
        rw [hpop]; exact writeRef_mode σ₂ _
      have hq3 : (rlPopMatrix σ₂).currentMatrix = σ₂.currentMatrix := by
        rw [hpop]; exact writeRef_currentMatrix σ₂ _
      have hq4 : (rlPopMatrix σ₂).stack = σ₂.stack := by
        rw [hpop]; exact writeRef_stack σ₂ _
      have hmode2 : σ₂.currentMatrixMode = σ.currentMatrixMode := by rw [d, p2]
      have hptr2 : σ₂.currentMatrix =
          (if σ.currentMatrixMode = .modelview then .refTransform else σ.currentMatrix) := by
        rw [c, p3]
      have hptrPop : (rlPopMatrix σ₂).currentMatrix = σ.currentMatrix := by
        rw [hq3, hptr2]
        split
        · rename_i hmv
          rw [h2 hmv]
        · rfl
      obtain ⟨a2, b2, c2, d2, e2⟩ := iht (rlPopMatrix σ₂)
        (by rw [hq1, hc2]; omega)
        (by
          intro hm
          rw [hptrPop]
          exact h2 (by rw [← hmode2, ← hq2]; exact hm))
      refine ⟨?_, ?_, ?_, ?_, ?_⟩
      · rw [a2, hq1, hc2]
        omega
      · intro j hj
        rw [b2 j (by rw [hq1, hc2]; omega), hq4,
          b j (by rw [p1]; omega), p4, Function.update_noteq (by omega)]
      · rw [c2, hptrPop]
      · rw [d2, hq2, hmode2]
      · intro hm
        have hm2 : σ₂.currentMatrixMode = .modelview := by rw [hmode2]; exact hm
        have hmp : (rlPopMatrix σ₂).currentMatrixMode = .modelview := by rw [hq2]; exact hm2
        rw [e2 hmp]
        have hmvPop : (rlPopMatrix σ₂).modelview = σ₂.modelview := by
          rw [hpop]
          exact writeRef_modelview_of_transform σ₂ _ (by rw [hptr2, if_pos hm])
        rw [hmvPop, e (by rw [p2]; exact hm), p5]

/-- Claim C6 counterexample: the restoration property as stated (with only
the counter-capacity condition on the start state) fails on a reachable
state in Modelview mode with counter 1 whose current reference still
designates the base Modelview matrix (rlMatrixMode leaves exactly this
after a push in another mode): a balanced push/pop lands the Transform
matrix under the current reference instead of the Modelview value visible
before the push. -/
theorem balanced_pushPop_restore_fails :
    Balanced [] ∧
    ((mstStale.stackCounter : ℤ) + maxLevel (.push :: [] ++ [.pop]) ≤ 32) ∧
    ¬ (readRef (runOps (.push :: [] ++ [.pop]) mstStale) = readRef mstStale) :=
  ⟨Balanced.nil, by decide, by decide⟩

/-- Claim C6 (amended): for a balanced sequence wrapped in a matching
push/pop pair within capacity, started from a state that is additionally
pointer-consistent (in Modelview mode the current reference designates
Modelview at counter 0 and Transform otherwise), the matrix visible
through the current reference after the last pop equals the one visible
immediately before the matching push. -/
theorem balanced_pushPop_restores (s : List StackOp) (σ : MatStackState)
    (hs : Balanced s) (hcons : Consistent σ)
    (hcap : (σ.stackCounter : ℤ) + maxLevel (.push :: s ++ [.pop]) ≤ 32) :
    readRef (runOps (.push :: s ++ [.pop]) σ) = readRef σ := by
  have hrw : runOps (.push :: s ++ [.pop]) σ
      = rlPopMatrix (runOps s (rlPushMatrix σ)) := by
    rw [runOps_append, runOps_cons]
    rfl
  rw [hrw]
  obtain ⟨p1, p2, p3, p4, p5, p6⟩ := rlPushMatrix_spec σ
  obtain ⟨a, b, c, d, e⟩ := balanced_middle hs (rlPushMatrix σ)
    (by omega)
    (by intro hm; rw [p3, if_pos (p2 ▸ hm)])
  set σ₂ := runOps s (rlPushMatrix σ)
  have hc2 : σ₂.stackCounter = σ.stackCounter + 1 := by rw [a, p1]
  have hmode2 : σ₂.currentMatrixMode = σ.currentMatrixMode := by rw [d, p2]
  have htop : σ₂.stack σ.stackCounter =
      (if σ.currentMatrixMode = .modelview then σ.transform else readRef σ) := by
    rw [b σ.stackCounter (by omega), p4, Function.update_same]
  by_cases hmv : σ.currentMatrixMode = .modelview
  · have hconsmv := hcons hmv
    by_cases h0 : σ.stackCounter = 0
    · have hpop := rlPopMatrix_reset σ₂ (by omega) (by rw [hmode2]; exact hmv)
      have hptrσ : σ.currentMatrix = .refModelview := by
        rw [hconsmv, if_pos h0]
      have hptr2 : σ₂.currentMatrix = .refTransform := by
        rw [c, p3, if_pos hmv]
      have hread3 : readRef (rlPopMatrix σ₂) = (writeRef σ₂ (σ₂.stack 0)).modelview := by
        rw [hpop]
        rfl
      rw [hread3, writeRef_modelview_of_transform σ₂ _ hptr2,
        e (by rw [p2]; exact hmv), p5]
      simp [readRef, hptrσ]
    · have hpop := rlPopMatrix_noreset σ₂ (by omega) (by
        intro hcon
        obtain ⟨hx, -⟩ := hcon
        rw [hc2] at hx
        omega)
      have hread3 : readRef (rlPopMatrix σ₂) = σ₂.stack (σ₂.stackCounter - 1) := by
        rw [hpop]
        exact readRef_writeRef σ₂ _
      have hidx : σ₂.stackCounter - 1 = σ.stackCounter := by omega
      have hptrσ : σ.currentMatrix = .refTransform := by
        rw [hconsmv, if_neg h0]
      rw [hread3, hidx, htop, if_pos hmv]
      simp [readRef, hptrσ]
  · have hpop := rlPopMatrix_noreset σ₂ (by omega) (by
      intro hcon
      obtain ⟨-, hy⟩ := hcon
      rw [hmode2] at hy
      exact hmv hy)
    have hread3 : readRef (rlPopMatrix σ₂) = σ₂.stack (σ₂.stackCounter - 1) := by
      rw [hpop]
      exact readRef_writeRef σ₂ _
    have hidx : σ₂.stackCounter - 1 = σ.stackCounter := by omega
    rw [hread3, hidx, htop, if_neg hmv]

/-- Witness for the amended C6 theorem: one push/pop pair from the
freshly initialized state. -/
theorem balanced_pushPop_restores_witness :
    (Balanced [] ∧ Consistent mstInit ∧
      ((mstInit.stackCounter : ℤ) + maxLevel (.push :: [] ++ [.pop]) ≤ 32)) ∧
    readRef (runOps (.push :: [] ++ [.pop]) mstInit) = readRef mstInit :=
  ⟨⟨Balanced.nil, by intro hm; decide, by decide⟩,
    balanced_pushPop_restores [] mstInit Balanced.nil (by intro hm; decide) (by decide)⟩

lemma applyWrites_not_mem (ws : List (Nat × Nat)) :
    ∀ (buf : Nat → Nat) (d : Nat), (∀ p ∈ ws, p.1 ≠ d) → applyWrites ws buf d = buf d := by
  induction ws with
  | nil => intro buf d _; rfl
  | cons w t ih =>
      intro buf d hkeys
      show applyWrites t (Function.update buf w.1 w.2) d = buf d
      rw [ih _ d (fun p hp => hkeys p (List.mem_cons_of_mem w hp)),
        Function.update_noteq (Ne.symm (hkeys w (List.mem_cons_self w t)))]

lemma applyWrites_mem (ws : List (Nat × Nat)) :
    ∀ (buf : Nat → Nat) (d v : Nat), (d, v) ∈ ws →
      (∀ p ∈ ws, p.1 = d → p.2 = v) → applyWrites ws buf d = v := by
  induction ws with
  | nil => intro buf d v hmem _; cases hmem
  | cons w t ih =>
      intro buf d v hmem huniq
      show applyWrites t (Function.update buf w.1 w.2) d = v
      by_cases hkey : ∃ p ∈ t, p.1 = d
      · obtain ⟨p, hp, hpd⟩ := hkey
        have hpv : p.2 = v := huniq p (List.mem_cons_of_mem w hp) hpd
        have hpdv : (d, v) ∈ t := by
          have hpe : p = (d, v) := Prod.ext hpd hpv
          rw [← hpe]
          exact hp
        exact ih _ d v hpdv (fun q hq hqd => huniq q (List.mem_cons_of_mem w hq) hqd)
      · push_neg at hkey
        have hw : w = (d, v) := by
          rcases List.mem_cons.mp hmem with hcase | hcase
          · exact hcase.symm
          · exact absurd rfl (hkey (d, v) hcase)
        rw [applyWrites_not_mem t _ d hkey, hw]
        exact Function.update_same d v buf

lemma mul_add_lt_inj {n a b r s : Nat} (hr : r < n) (hs : s < n)
    (h : a * n + r = b * n + s) : a = b ∧ r = s := by
  have hn : 0 < n := by omega
  have ha : (a * n + r) / n = a := by
    rw [Nat.mul_comm a n, Nat.mul_add_div hn, Nat.div_eq_of_lt hr, Nat.add_zero]
  have hb : (b * n + s) / n = b := by
    rw [Nat.mul_comm b n, Nat.mul_add_div hn, Nat.div_eq_of_lt hs, Nat.add_zero]
  have hab : a = b := by rw [← ha, ← hb, h]
  refine ⟨hab, ?_⟩
  subst hab
  exact Nat.add_left_cancel h

lemma swizzleArr_lt : ∀ i : Fin 64, swizzleArr i.val < 64 := by decide

lemma swizzleArr_inj : ∀ i j : Fin 64, swizzleArr i.val = swizzleArr j.val → i = j := by
  decide

lemma swizzleArr_pair : ∀ m : Fin 32,
    swizzleArr (2 * m.val + 1) = swizzleArr (2 * m.val) + 1 := by
  decide

lemma evenIdx_facts : ∀ i : Fin 64,
    2 * (i.val / 2) / 8 = i.val / 8 ∧
    2 * (i.val / 2) % 8 + i.val % 2 = i.val % 8 ∧
    2 * (i.val / 2) + i.val % 2 = i.val := by
  decide

lemma srcAddr_eq (data : Nat → Nat) (width height bpp : Nat)
    (hbpp : bpp % 8 = 0) (w h i k : Nat) (hi : i < 64) :
    data ((w * 8 + 2 * (i / 2) % 8 + (height - (h * 8 + 2 * (i / 2) / 8) - 1) * width)
        * bpp / 8 + k + bpp / 8 * (i % 2))
      = data (((height - (h * 8 + i / 8) - 1) * width + (w * 8 + i % 8)) * (bpp / 8) + k) := by
  have hdvd : (8 : Nat) ∣ bpp := Nat.dvd_of_mod_eq_zero hbpp
  have hmd : ∀ x : Nat, x * bpp / 8 = x * (bpp / 8) := fun x => Nat.mul_div_assoc x hdvd
  have f1 : 2 * (i / 2) / 8 = i / 8 := (evenIdx_facts ⟨i, hi⟩).1
  have f2 : 2 * (i / 2) % 8 + i % 2 = i % 8 := (evenIdx_facts ⟨i, hi⟩).2.1
  congr 1
  rw [hmd, f1, ← f2]
  generalize height - (h * 8 + i / 8) - 1 = r
  ring

lemma swizzleWrites_mem (data : Nat → Nat) (width height bpp : Nat)
    (hbpp : bpp % 8 = 0) (hbpp8 : 8 ≤ bpp)
    (w h i k : Nat) (hw : w < width / 8) (hh : h < height / 8) (hi : i < 64)
    (hk : k < bpp / 8) :
    (((w + h * (width / 8)) * 64 + swizzleArr i) * (bpp / 8) + (bpp / 8 - 1 - k),
      data (((height - (h * 8 + i / 8) - 1) * width + (w * 8 + i % 8)) * (bpp / 8) + k))
      ∈ swizzleWrites data width height bpp := by
  have hnb : ¬ (bpp / 8 = 0) := by
    have h88 : 8 / 8 ≤ bpp / 8 := Nat.div_le_div_right hbpp8
    omega
  have hdvd : (8 : Nat) ∣ bpp := Nat.dvd_of_mod_eq_zero hbpp
  have hmd : ∀ x : Nat, x * bpp / 8 = x * (bpp / 8) := fun x => Nat.mul_div_assoc x hdvd
  have f3 : 2 * (i / 2) + i % 2 = i := (evenIdx_facts ⟨i, hi⟩).2.2
  simp only [swizzleWrites, List.mem_flatMap, List.mem_range, List.mem_map, if_neg hnb]
  refine ⟨w, hw, h, hh, i / 2, by omega, i % 2, by omega, k, hk, ?_⟩
  have harr : swizzleArr (2 * (i / 2)) + i % 2 = swizzleArr i := by
    have h2 : i % 2 = 0 ∨ i % 2 = 1 := by omega
    rcases h2 with h0 | h1
    · rw [h0, Nat.add_zero]
      congr 1
      omega
    · rw [h1]
      calc swizzleArr (2 * (i / 2)) + 1 = swizzleArr (2 * (i / 2) + 1) :=
            (swizzleArr_pair ⟨i / 2, by omega⟩).symm
        _ = swizzleArr i := by congr 1; omega
  refine Prod.ext ?_ ?_
  · show (w + h * (width / 8)) * 64 * bpp / 8 + swizzleArr (2 * (i / 2)) * bpp / 8
        + (bpp / 8) * (i % 2) + (bpp / 8 - k - 1)
      = ((w + h * (width / 8)) * 64 + swizzleArr i) * (bpp / 8) + (bpp / 8 - 1 - k)
    rw [hmd ((w + h * (width / 8)) * 64), hmd (swizzleArr (2 * (i / 2)))]
    have hsum : (w + h * (width / 8)) * 64 + swizzleArr (2 * (i / 2)) + i % 2
        = (w + h * (width / 8)) * 64 + swizzleArr i := by omega
    have hexp : (w + h * (width / 8)) * 64 * (bpp / 8) + swizzleArr (2 * (i / 2)) * (bpp / 8)
        + bpp / 8 * (i % 2)
        = ((w + h * (width / 8)) * 64 + swizzleArr (2 * (i / 2)) + i % 2) * (bpp / 8) := by
      ring
    rw [hsum] at hexp
    omega
  · exact srcAddr_eq data width height bpp hbpp w h i k hi

lemma swizzleArr_split (m j : Nat) (hm : m < 32) (hj : j < 2) :
    swizzleArr (2 * m) + j = swizzleArr (2 * m + j) := by
  rcases (by omega : j = 0 ∨ j = 1) with h | h
  · rw [h, Nat.add_zero, Nat.add_zero]
  · rw [h]
    exact (swizzleArr_pair ⟨m, hm⟩).symm

lemma swizzleWrites_uniq (data : Nat → Nat) (width height bpp : Nat)
    (hbpp : bpp % 8 = 0) (hbpp8 : 8 ≤ bpp)
    (w h i k : Nat) (hw : w < width / 8) (hh : h < height / 8) (hi : i < 64)
    (hk : k < bpp / 8) :
    ∀ p ∈ swizzleWrites data width height bpp,
      p.1 = ((w + h * (width / 8)) * 64 + swizzleArr i) * (bpp / 8) + (bpp / 8 - 1 - k) →
      p.2 = data (((height - (h * 8 + i / 8) - 1) * width + (w * 8 + i % 8)) * (bpp / 8) + k) := by
  have hnb : ¬ (bpp / 8 = 0) := by
    have h88 : 8 / 8 ≤ bpp / 8 := Nat.div_le_div_right hbpp8
    omega
  have hdvd : (8 : Nat) ∣ bpp := Nat.dvd_of_mod_eq_zero hbpp
  have hmd : ∀ x : Nat, x * bpp / 8 = x * (bpp / 8) := fun x => Nat.mul_div_assoc x hdvd
  intro p hp hpd
  simp only [swizzleWrites, List.mem_flatMap, List.mem_range, List.mem_map, if_neg hnb] at hp
  obtain ⟨w2, hw2, h2, hh2, m2, hm2, j2, hj2, k2, hk2, hpe⟩ := hp
  rw [← hpe] at hpd ⊢
  dsimp only [] at hpd ⊢
  rw [hmd ((w2 + h2 * (width / 8)) * 64), hmd (swizzleArr (2 * m2))] at hpd
  have hexp2 : (w2 + h2 * (width / 8)) * 64 * (bpp / 8) + swizzleArr (2 * m2) * (bpp / 8)
      + bpp / 8 * j2
      = ((w2 + h2 * (width / 8)) * 64 + swizzleArr (2 * m2) + j2) * (bpp / 8) := by
    ring
  have hA2 : ((w2 + h2 * (width / 8)) * 64 + swizzleArr (2 * m2 + j2)) * (bpp / 8)
        + (bpp / 8 - 1 - k2)
      = ((w + h * (width / 8)) * 64 + swizzleArr i) * (bpp / 8) + (bpp / 8 - 1 - k) := by
    have hs : (w2 + h2 * (width / 8)) * 64 + swizzleArr (2 * m2 + j2)
        = (w2 + h2 * (width / 8)) * 64 + swizzleArr (2 * m2) + j2 := by
      rw [← swizzleArr_split m2 j2 hm2 hj2]
      omega
    rw [hs, ← hexp2]
    omega
  obtain ⟨hA, hr⟩ := mul_add_lt_inj (by omega) (by omega) hA2
  have hk2k : k2 = k := by omega
  obtain ⟨hT, harr⟩ := mul_add_lt_inj
    (swizzleArr_lt ⟨2 * m2 + j2, by omega⟩) (swizzleArr_lt ⟨i, hi⟩) hA
  have hfin : (⟨2 * m2 + j2, by omega⟩ : Fin 64) = ⟨i, hi⟩ :=
    swizzleArr_inj ⟨2 * m2 + j2, by omega⟩ ⟨i, hi⟩ harr
  have hieq : 2 * m2 + j2 = i := congrArg Fin.val hfin
  have hswap : h2 * (width / 8) + w2 = h * (width / 8) + w := by omega
  obtain ⟨hhh, hww⟩ := mul_add_lt_inj hw2 hw hswap
  have hm2i : m2 = i / 2 := by omega
  have hj2i : j2 = i % 2 := by omega
  rw [hww, hhh, hk2k, hm2i, hj2i]
  exact srcAddr_eq data width height bpp hbpp w h i k hi

/-- Claim C7: for valid dimensions and an uncompressed format of bpp at
least 8, the tiling encode stores, for each tile (w, h) and local index
i < 64, the source pixel at column w*8 + i%8 of source row
height - (h*8 + i/8) - 1 into output pixel slot tileNum*64 + swizzleArr i
(tileNum = w + h*(width/8)), with the pixel's bytes reversed (output byte
numBytes-1-k holds source byte k); the output buffer is exactly
width*height*bpp/8 bytes. -/
theorem swizzleEncode_spec (data : Nat → Nat) (width height bpp : Nat)
    (hw : checkTexSize width = true) (hh : checkTexSize height = true)
    (hbpp : bpp % 8 = 0) (hbpp8 : 8 ≤ bpp)
    (w h i k : Nat) (hwlt : w < width / 8) (hhlt : h < height / 8)
    (hilt : i < 64) (hklt : k < bpp / 8) :
    swizzleEncode data width height bpp
        (((w + h * (width / 8)) * 64 + swizzleArr i) * (bpp / 8) + (bpp / 8 - 1 - k))
      = data (((height - (h * 8 + i / 8) - 1) * width + (w * 8 + i % 8)) * (bpp / 8) + k) ∧
    (swizzleEncodeBytes data width height bpp).length = width * height * bpp / 8 := by
  constructor
  · exact applyWrites_mem _ _ _ _
      (swizzleWrites_mem data width height bpp hbpp hbpp8 w h i k hwlt hhlt hilt hklt)
      (swizzleWrites_uniq data width height bpp hbpp hbpp8 w h i k hwlt hhlt hilt hklt)
  · simp [swizzleEncodeBytes]

/-- Witness for the C7 theorem on an 8 by 8 grayscale image at tile (0,0),
local index 5. -/
theorem swizzleEncode_spec_witness :
    (checkTexSize 8 = true ∧ checkTexSize 8 = true ∧ (8 : Nat) % 8 = 0 ∧ (8 : Nat) ≤ 8 ∧
      0 < 8 / 8 ∧ 0 < 8 / 8 ∧ 5 < 64 ∧ 0 < 8 / 8) ∧
    (swizzleEncode dataBytes 8 8 8
        (((0 + 0 * (8 / 8)) * 64 + swizzleArr 5) * (8 / 8) + (8 / 8 - 1 - 0))
      = dataBytes (((8 - (0 * 8 + 5 / 8) - 1) * 8 + (0 * 8 + 5 % 8)) * (8 / 8) + 0) ∧
    (swizzleEncodeBytes dataBytes 8 8 8).length = 8 * 8 * 8 / 8) :=
  ⟨by decide, swizzleEncode_spec dataBytes 8 8 8 (by decide) (by decide) (by decide)
    (by decide) 0 0 5 0 (by decide) (by decide) (by decide) (by decide)⟩

end Rlgl
